import Mathlib

set_option maxRecDepth 10000
set_option maxHeartbeats 1000000

/-!
Shallow embedding of the PRManager event-to-verdict pipeline.

Source files embedded here:
- src/api/services/github_client.py (signature verification, PR context fetch)
- src/api/services/classifier.py   (validation, fallback heuristic, classify)
- src/api/routes/webhooks.py       (webhook endpoint, bot-command parsing)
- src/workers/process_pr.py        (processing chain, retry dispatch)
- src/api/database.py              (persisted pull-request record)

Bytes are modelled as natural numbers below 256, Python floats as rationals,
JSON values as an inductive type.  Machine-word arithmetic in SHA-256 is
carried out on Nat with explicit reduction modulo 2^32.
-/

namespace PRManager

/-! ### SHA-256, modelling Python hashlib.sha256 (FIPS 180-4) -/

/-- Round constants of SHA-256: fractional parts of the cube roots of the
first 64 primes, as 32-bit words. -/
def sha256K : List Nat :=
  [1116352408, 1899447441, 3049323471, 3921009573, 961987163, 1508970993,
   2453635748, 2870763221, 3624381080, 310598401, 607225278, 1426881987,
   1925078388, 2162078206, 2614888103, 3248222580, 3835390401, 4022224774,
   264347078, 604807628, 770255983, 1249150122, 1555081692, 1996064986,
   2554220882, 2821834349, 2952996808, 3210313671, 3336571891, 3584528711,
   113926993, 338241895, 666307205, 773529912, 1294757372, 1396182291,
   1695183700, 1986661051, 2177026350, 2456956037, 2730485921, 2820302411,
   3259730800, 3345764771, 3516065817, 3600352804, 4094571909, 275423344,
   430227734, 506948616, 659060556, 883997877, 958139571, 1322822218,
   1537002063, 1747873779, 1955562222, 2024104815, 2227730452, 2361852424,
   2428436474, 2756734187, 3204031479, 3329325298]

/-- Right rotation of a 32-bit word. -/
def rotr32 (n w : Nat) : Nat :=
  ((w >>> n) ||| (w <<< (32 - n))) % 4294967296

/-- Addition of 32-bit words, reduced modulo 2^32. -/
def add32 (a b : Nat) : Nat := (a + b) % 4294967296

/-- The SHA-256 Ch function. -/
def sha2Ch (x y z : Nat) : Nat := (x &&& y) ^^^ ((x ^^^ 4294967295) &&& z)

/-- The SHA-256 Maj function. -/
def sha2Maj (x y z : Nat) : Nat := ((x &&& y) ^^^ (x &&& z)) ^^^ (y &&& z)

/-- The SHA-256 big Sigma0 function. -/
def bigSigma0 (x : Nat) : Nat := (rotr32 2 x ^^^ rotr32 13 x) ^^^ rotr32 22 x

/-- The SHA-256 big Sigma1 function. -/
def bigSigma1 (x : Nat) : Nat := (rotr32 6 x ^^^ rotr32 11 x) ^^^ rotr32 25 x

/-- The SHA-256 small sigma0 function. -/
def smallSigma0 (x : Nat) : Nat := (rotr32 7 x ^^^ rotr32 18 x) ^^^ (x >>> 3)

/-- The SHA-256 small sigma1 function. -/
def smallSigma1 (x : Nat) : Nat := (rotr32 17 x ^^^ rotr32 19 x) ^^^ (x >>> 10)

/-- Working state of the SHA-256 compression function (eight 32-bit words). -/
structure Hash8 where
  a : Nat
  b : Nat
  c : Nat
  d : Nat
  e : Nat
  f : Nat
  g : Nat
  h : Nat
deriving DecidableEq

/-- Initial hash value of SHA-256. -/
def sha256InitH : Hash8 :=
  ⟨1779033703, 3144134277, 1013904242, 2773480762,
   1359893119, 2600822924, 528734635, 1541459225⟩

/-- One round of the SHA-256 compression function. -/
def sha256Round (s : Hash8) (k w : Nat) : Hash8 :=
  let t1 := add32 (add32 s.h (bigSigma1 s.e)) (add32 (sha2Ch s.e s.f s.g) (add32 k w))
  let t2 := add32 (bigSigma0 s.a) (sha2Maj s.a s.b s.c)
  ⟨add32 t1 t2, s.a, s.b, s.c, add32 s.d t1, s.e, s.f, s.g⟩

/-- Message-schedule extension loop: appends `fuel` further words to `w`. -/
def sha256ScheduleGo (w : List Nat) : Nat → List Nat
  | 0 => w
  | fuel + 1 =>
      let n := w.length
      let wt := add32 (add32 (smallSigma1 (w.getD (n - 2) 0)) (w.getD (n - 7) 0))
                      (add32 (smallSigma0 (w.getD (n - 15) 0)) (w.getD (n - 16) 0))
      sha256ScheduleGo (w ++ [wt]) fuel

/-- Expands a 16-word block to the 64-word SHA-256 message schedule. -/
def sha256Schedule (block : List Nat) : List Nat :=
  sha256ScheduleGo block 48

/-- SHA-256 compression of one 16-word block into the running hash. -/
def sha256Compress (hv : Hash8) (block : List Nat) : Hash8 :=
  let w := sha256Schedule block
  let s := (List.zip sha256K w).foldl (fun st kw => sha256Round st kw.1 kw.2) hv
  ⟨add32 hv.a s.a, add32 hv.b s.b, add32 hv.c s.c, add32 hv.d s.d,
   add32 hv.e s.e, add32 hv.f s.f, add32 hv.g s.g, add32 hv.h s.h⟩

/-- Big-endian byte expansion of a natural number into `k` bytes. -/
def bytesBE : Nat → Nat → List Nat
  | 0, _ => []
  | k + 1, x => bytesBE k (x / 256) ++ [x % 256]

/-- Groups a byte list into big-endian 32-bit words (four bytes each). -/
def wordsOf : List Nat → List Nat
  | b0 :: b1 :: b2 :: b3 :: rest => (((b0 * 256 + b1) * 256 + b2) * 256 + b3) :: wordsOf rest
  | _ => []

/-- Splits a byte list into 64-byte chunks, with explicit fuel. -/
def chunks64Go : Nat → List Nat → List (List Nat)
  | 0, _ => []
  | _, [] => []
  | fuel + 1, l => l.take 64 :: chunks64Go fuel (l.drop 64)

/-- Splits a byte list into 64-byte chunks. -/
def chunks64 (l : List Nat) : List (List Nat) := chunks64Go l.length l

/-- SHA-256 padding: appends the 0x80 byte, zeros, and the 64-bit big-endian
bit length so the result is a multiple of 64 bytes. -/
def sha256Pad (msg : List Nat) : List Nat :=
  let len := msg.length
  let zeros := (119 - len % 64) % 64
  msg ++ [128] ++ List.replicate zeros 0 ++ bytesBE 8 (len * 8)

/-- SHA-256 digest of a byte string, as 32 bytes. -/
def sha256Bytes (msg : List Nat) : List Nat :=
  let fin := (chunks64 (sha256Pad msg)).foldl (fun hv b => sha256Compress hv (wordsOf b)) sha256InitH
  bytesBE 4 fin.a ++ bytesBE 4 fin.b ++ bytesBE 4 fin.c ++ bytesBE 4 fin.d ++
  bytesBE 4 fin.e ++ bytesBE 4 fin.f ++ bytesBE 4 fin.g ++ bytesBE 4 fin.h

/-! ### HMAC-SHA256, modelling Python hmac.new(key, msg, hashlib.sha256) -/

/-- HMAC-SHA256 of a message under a key (RFC 2104 with a 64-byte block). -/
def hmacSha256 (key msg : List Nat) : List Nat :=
  let k0 := if key.length > 64 then sha256Bytes key else key
  let kp := k0 ++ List.replicate (64 - k0.length) 0
  let ipadK := kp.map (fun b => b ^^^ 54)
  let opadK := kp.map (fun b => b ^^^ 92)
  sha256Bytes (opadK ++ sha256Bytes (ipadK ++ msg))

/-- Lowercase hexadecimal digit for a value below 16. -/
def hexDigit (n : Nat) : Char :=
  if n < 10 then Char.ofNat (48 + n) else Char.ofNat (87 + n)

/-- Lowercase hexadecimal rendering of a byte string, modelling hexdigest. -/
def hexOfBytes (bs : List Nat) : List Char :=
  (bs.map (fun b => [hexDigit (b / 16), hexDigit (b % 16)])).flatten

/-! ### GitHubClient.verify_webhook_signature (src/api/services/github_client.py) -/

/-- The signature GitHub would send for `payload` under `secret`: the fixed
scheme tag followed by the lowercase hex HMAC-SHA256 digest, modelling the
`expected_signature` local of `verify_webhook_signature`. -/
def expected_signature (secret payload : List Nat) : List Char :=
  ("sha256=").toList ++ hexOfBytes (hmacSha256 secret payload)

/-- Models `GitHubClient.verify_webhook_signature`.  `webhook_secret = none`
models a missing (or empty, hence falsy) `GITHUB_WEBHOOK_SECRET`; the secret
and raw body are byte strings, the provided signature header a character
string.  `hmac.compare_digest` is constant-time string equality, modelled as
equality.  The source wraps the computation in a `try` returning `False` on
error; the computation here is total, so no error branch arises. -/
def verify_webhook_signature (webhook_secret : Option (List Nat))
    (payload : List Nat) (signature : List Char) : Bool :=
  match webhook_secret with
  | none => true
  | some secret => signature == expected_signature secret payload

/-! ### JSON values and Python coercion semantics -/

/-- JSON-like values as produced by `json.loads`: Python distinguishes
`int` and `float`; floats are modelled as rationals. -/
inductive JVal where
  | jnull
  | jbool (b : Bool)
  | jint (n : Int)
  | jfloat (q : Rat)
  | jstr (s : String)
  | jarr (xs : List JVal)
  | jobj (fields : List (String × JVal))

/-- A JSON object, as an association list with first-occurrence lookup. -/
abbrev JObj := List (String × JVal)

/-- Models Python `d.get(k)` on a dict: the first binding of the key. -/
def jlookup (o : JObj) (k : String) : Option JVal :=
  match o with
  | [] => none
  | (k2, v) :: rest => if k2 = k then some v else jlookup rest k

/-- Models Python `d.get(k, default)`. -/
def jlookupD (o : JObj) (k : String) (d : JVal) : JVal :=
  (jlookup o k).getD d

/-- Models Python `d[k] = v`: replaces the first binding or appends. -/
def setKey : JObj → String → JVal → JObj
  | [], k, v => [(k, v)]
  | (k2, v2) :: rest, k, v =>
      if k2 = k then (k, v) :: rest else (k2, v2) :: setKey rest k v

/-- Models Python `min(a, b)` on floats. -/
def pyminQ (a b : Rat) : Rat := if a ≤ b then a else b

/-- Models Python `max(a, b)` on floats. -/
def pymaxQ (a b : Rat) : Rat := if b ≤ a then a else b

/-- Models Python `min(a, b)` on ints. -/
def pyminZ (a b : Int) : Int := if a ≤ b then a else b

/-- Models Python `max(a, b)` on ints. -/
def pymaxZ (a b : Int) : Int := if b ≤ a then a else b

/-- Behaviour of Python's string-to-number builtins, kept abstract: the
classifier's invariants hold for every parsing behaviour of `float(str)`
and `int(str)`. -/
structure PyCoerce where
  floatOfString : String → Option Rat
  intOfString : String → Option Int

/-- Truncation toward zero, modelling Python `int(float)`. -/
def ratTrunc (q : Rat) : Int := if q < 0 then -((-q).floor) else q.floor

/-- Models Python `float(x)` on a JSON value: numbers and bools convert,
strings parse (abstractly), `None`/lists/dicts raise `TypeError` (`none`). -/
def pyFloat (co : PyCoerce) : JVal → Option Rat
  | .jint n => some (n : Int)
  | .jfloat q => some q
  | .jbool b => some (if b then 1 else 0)
  | .jstr s => co.floatOfString s
  | _ => none

/-- Models Python `int(x)` on a JSON value: ints pass through, floats
truncate toward zero, bools convert, strings parse (abstractly), and
`None`/lists/dicts raise `TypeError` (`none`). -/
def pyInt (co : PyCoerce) : JVal → Option Int
  | .jint n => some n
  | .jfloat q => some (ratTrunc q)
  | .jbool b => some (if b then 1 else 0)
  | .jstr s => co.intOfString s
  | _ => none

/-- A coercion behaviour under which every string fails to parse; used only
to instantiate universally quantified theorems at a concrete input. -/
def noStringCoerce : PyCoerce := ⟨fun _ => none, fun _ => none⟩

/-! ### PRClassifier (src/api/services/classifier.py) -/

/-- The `valid_classifications` list of `PRClassifier._validate_result`. -/
def valid_classifications : List String :=
  [("Ready to Merge"), ("Needs Architecture Discussion"), ("Needs Minor Fixes"),
   ("Needs Mentor Support"), ("Needs Maintainer Decision"), ("Blocked/Stale")]

/-- Models the membership test `result.get("classification") in
valid_classifications`: in Python only an equal `str` is a member of a list
of strings. -/
def isValidClassification (v : Option JVal) : Bool :=
  match v with
  | some (.jstr s) => valid_classifications.contains s
  | _ => false

/-- Models `PRClassifier._validate_result`: replaces an unrecognized
classification, coerces and clamps confidence and priority, and defaults
missing reasoning and suggested action (present values pass through). -/
def validate_result (co : PyCoerce) (result : JObj) : JObj :=
  let r1 := if isValidClassification (jlookup result ("classification")) then result
            else setKey result ("classification") (.jstr ("Needs Minor Fixes"))
  let conf := (pyFloat co (jlookupD r1 ("confidence") (.jfloat (1/2)))).getD (1/2)
  let r2 := setKey r1 ("confidence") (.jfloat (pymaxQ 0 (pyminQ 1 conf)))
  let prio := (pyInt co (jlookupD r2 ("priority_score") (.jint 50))).getD 50
  let r3 := setKey r2 ("priority_score") (.jint (pymaxZ 0 (pyminZ 100 prio)))
  let r4 := setKey r3 ("reasoning") (jlookupD r3 ("reasoning") (.jstr ("Analysis completed")))
  setKey r4 ("suggested_action") (jlookupD r4 ("suggested_action")
    (.jstr ("Review and take appropriate action")))

/-- A GitHub pull-request webhook payload, restricted to the fields the
pipeline reads, with the types the GitHub API gives them.  `none` models an
absent key (subscript access raises `KeyError`; `.get` yields the default).
`body` is nullable when present, and `mergeable` is nullable when present
(`some none` models JSON `null`). -/
structure PRPayload where
  id : Option Int := none
  number : Option Int := none
  head_repo_full_name : Option String := none
  title : Option String := none
  body : Option (Option String) := none
  user_login : Option String := none
  state : Option String := none
  draft : Option Bool := none
  additions : Option Int := none
  deletions : Option Int := none
  changed_files : Option Int := none
  commits : Option Int := none
  mergeable : Option (Option Bool) := none

/-- The `is_draft` local of `_get_fallback_classification`:
`pr_data.get("draft", False)`. -/
def fallback_is_draft (pr_data : PRPayload) : Bool := pr_data.draft.getD false

/-- The `has_conflicts` local of `_get_fallback_classification`:
`pr_data.get("mergeable", True) is False` — only a present, non-null,
literally false value counts. -/
def fallback_has_conflicts (pr_data : PRPayload) : Bool :=
  match pr_data.mergeable with
  | some (some false) => true
  | _ => false

/-- The `additions` local of `_get_fallback_classification`:
`pr_data.get("additions", 0)`. -/
def fallback_additions (pr_data : PRPayload) : Int := pr_data.additions.getD 0

/-- Models `PRClassifier._get_fallback_classification`: the deterministic
heuristic used when the reasoning-service branch fails. -/
def get_fallback_classification (pr_data : PRPayload) : JObj :=
  let pick : String × Int :=
    if fallback_is_draft pr_data then (("Needs Minor Fixes"), 20)
    else if fallback_has_conflicts pr_data then (("Blocked/Stale"), 80)
    else if fallback_additions pr_data > 500 then (("Needs Architecture Discussion"), 60)
    else (("Ready to Merge"), 50)
  [(("classification"), .jstr pick.1),
   (("confidence"), .jfloat (3/10)),
   (("priority_score"), .jint pick.2),
   (("reasoning"), .jstr ("Fallback classification due to analysis error")),
   (("suggested_action"), .jstr ("Manual review recommended"))]

/-- Merged analysis data built by `PRClassifier._prepare_pr_data`: the basic
payload fields with their `.get` defaults, plus optional context-derived
fields that are set only when a non-empty context dict is supplied. -/
structure AnalysisData where
  title : String
  description : String
  author : String
  state : String
  draft : Bool
  additions : Int
  deletions : Int
  changed_files : Int
  commits : Int
  has_conflicts : Option Bool := none
  ci_status : Option JVal := none
  review_count : Option JVal := none
  author_contributions : Option JVal := none
  days_since_created : Option JVal := none

/-- Models `PRClassifier._prepare_pr_data`.  The basic fields use the
source's `.get` defaults (a null `body` also becomes the empty string via
`or ""`).  When `pr_context` is a non-empty dict (Python truthiness), the
context-derived fields are added; `has_conflicts` is
`pr_context.get("mergeable", True) is False`. -/
def prepare_pr_data (pr_data : PRPayload) (pr_context : Option JObj) : AnalysisData :=
  let basic : AnalysisData :=
    { title := pr_data.title.getD ("")
      description := (pr_data.body.getD none).getD ("")
      author := pr_data.user_login.getD ("")
      state := pr_data.state.getD ("")
      draft := pr_data.draft.getD false
      additions := pr_data.additions.getD 0
      deletions := pr_data.deletions.getD 0
      changed_files := pr_data.changed_files.getD 0
      commits := pr_data.commits.getD 0 }
  match pr_context with
  | some ctx =>
      if ctx.isEmpty then basic
      else
        { basic with
          has_conflicts := some (jlookupD ctx ("mergeable") (.jbool true) matches .jbool false)
          ci_status := some (jlookupD ctx ("ci_status") (.jstr ("unknown")))
          review_count := some (jlookupD ctx ("review_count") (.jint 0))
          author_contributions := some (jlookupD ctx ("author_contributions") (.jint 0))
          days_since_created := some (jlookupD ctx ("days_since_created") (.jint 0)) }
  | none => basic

/-- Outcome of the reasoning-service branch of `classify_pr`, up to and
including `json.loads`: `none` models any exception in the branch (network,
auth, timeout, a non-JSON response); `some v` models a parsed response
value `v` (which need not be an object). -/
abbrev ServiceOutcome := Option JVal

/-- Models `PRClassifier.classify_pr`.  The prompt string built from the
prepared data is not modelled (no claim depends on its text); the
reasoning-service call and response parsing are summarised by `svc`.  A
parsed object is validated; any failure, or a parsed non-object (whose
`.get` raises inside the same `try`), falls back to the heuristic. -/
def classify_pr (co : PyCoerce) (pr_data : PRPayload) (pr_context : Option JObj)
    (svc : ServiceOutcome) : JObj :=
  let _analysis := prepare_pr_data pr_data pr_context
  match svc with
  | some (.jobj result) => validate_result co result
  | some _ => get_fallback_classification pr_data
  | none => get_fallback_classification pr_data

/-- Detects the failure cases of the reasoning-service branch: everything
except a successfully parsed JSON object. -/
def service_branch_failed (svc : ServiceOutcome) : Bool :=
  match svc with
  | some (.jobj _) => false
  | _ => true

/-! ### GitHubClient.get_pr_context (src/api/services/github_client.py) -/

/-- Models `GitHubClient.get_pr_context`: the MVP source ignores its
arguments and returns this fixed dict (its `except` branch is unreachable
because the `try` body cannot raise). -/
def get_pr_context (_repo_full_name : String) (_pr_number : Int) : JObj :=
  [(("ci_status"), .jstr ("unknown")),
   (("review_count"), .jint 0),
   (("author_contributions"), .jint 0),
   (("days_since_created"), .jint 0),
   (("has_conflicts"), .jbool false)]

/-! ### Bot-command parsing (src/api/routes/webhooks.py, _parse_bot_command) -/

/-- A parsed bot command. -/
inductive BotCommand where
  | triage
  | help
deriving DecidableEq

/-- Models Python `str.lower()` on the characters of a comment. -/
def toLowerChars (s : List Char) : List Char := s.map Char.toLower

/-- Models Python `str.split(sep)` for a one-character separator: splitting
the empty string yields one empty piece, and separators delimit pieces. -/
def splitOnChar (c : Char) : List Char → List (List Char)
  | [] => [[]]
  | x :: xs =>
      match splitOnChar c xs, decide (x = c) with
      | r, true => [] :: r
      | y :: ys, false => (x :: y) :: ys
      | [], false => [[x]]

/-- Models Python `needle in haystack` on strings: substring containment. -/
def containsSub (haystack needle : List Char) : Bool :=
  decide (needle <:+: haystack)

/-- The bot mention token scanned for by `_parse_bot_command`. -/
def mentionToken : List Char := ("@prcopilot").toList

/-- The `/triage` subcommand token. -/
def triageToken : List Char := ("/triage").toList

/-- The `/help` subcommand token. -/
def helpToken : List Char := ("/help").toList

/-- The line scan of `_parse_bot_command`: a line containing the mention is
checked for `/triage` then `/help`; a mention line with neither subcommand
is skipped and the scan continues. -/
def parseBotScan : List (List Char) → Option BotCommand
  | [] => none
  | line :: rest =>
      if containsSub line mentionToken then
        if containsSub line triageToken then some .triage
        else if containsSub line helpToken then some .help
        else parseBotScan rest
      else parseBotScan rest

/-- Models `_parse_bot_command`: lowercases the comment, splits it into
lines, and scans them top-to-bottom. -/
def parse_bot_command (comment_body : List Char) : Option BotCommand :=
  parseBotScan (splitOnChar (Char.ofNat 10) (toLowerChars comment_body))

/-- Restatement of the claim's wording for the scan, for comparison with
the embedded parser: the first line containing the mention token together
with a recognized subcommand decides the result, `/triage` taking
precedence over `/help` within that line; no such line yields null. -/
def parseBotSpec (comment_body : List Char) : Option BotCommand :=
  ((splitOnChar (Char.ofNat 10) (toLowerChars comment_body)).find? (fun line =>
      containsSub line mentionToken &&
        (containsSub line triageToken || containsSub line helpToken))).map
    (fun line => if containsSub line triageToken then .triage else .help)

/-! ### Persisted record and processing chain (src/workers/process_pr.py) -/

/-- Python exceptions distinguished by the embedded control flow. -/
inductive PyErr where
  | httpExc (status : Nat) (detail : String)
  | jsonDecode
  | keyError
  | attrError
deriving DecidableEq

/-- Models the `pull_requests` row built by `process_pull_request`
(class `PullRequest` of src/api/database.py).  The analysis fields hold the
JSON values taken from the classification result. -/
structure PrRecord where
  github_pr_id : Int
  repository_full_name : String
  pr_number : Int
  title : String
  description : String
  author : String
  state : String
  classification : JVal
  confidence : JVal
  priority_score : JVal
  reasoning : JVal
  suggested_action : JVal

/-- Return value of `process_pull_request`: the skipped dict or the success
dict (its classification and priority taken from the analysis result). -/
inductive RunResult where
  | skipped (reason : String)
  | success (pr_number : Int) (classification : JVal) (priority_score : JVal)

/-- The value space of the `pr_context` argument reaching
`classify_pr`/`_prepare_pr_data` at runtime: Python `None` (the parameter
default), a dict, or the un-awaited coroutine object produced by calling the
`async def get_pr_context` without `await` from the synchronous task. -/
inductive CtxVal where
  | pynone
  | dict (o : JObj)
  | coroutine

/-- Models the worker's binding `pr_context =
github_client.get_pr_context(repo_full_name, pr_number)`:
`get_pr_context` is `async def` and `process_pull_request` is a synchronous
function that calls it without `await`, so the bound value is an un-awaited
coroutine object — not the dict of `get_pr_context`'s body. -/
def get_pr_context_unawaited (_repo_full_name : String) (_pr_number : Int) : CtxVal :=
  .coroutine

/-- Models `classify_pr` on the full runtime value space of `pr_context`.
`_prepare_pr_data` runs before the `try` block of `classify_pr`; for `None`
or a dict it is total and the call behaves as `classify_pr`, but a coroutine
is truthy, so `_prepare_pr_data` enters its context branch and
`pr_context.get("mergeable", True)` raises `AttributeError`, which escapes
`classify_pr` to its caller. -/
def classify_pr_ctx (co : PyCoerce) (pr_data : PRPayload) (pr_context : CtxVal)
    (svc : ServiceOutcome) : Except PyErr JObj :=
  match pr_context with
  | .pynone => .ok (classify_pr co pr_data none svc)
  | .dict o => .ok (classify_pr co pr_data (some o) svc)
  | .coroutine => .error .attrError

/-- Models the body of `process_pull_request` (the chain run once): extract
the identifiers (`KeyError` when absent), skip if a row for the PR id
exists, otherwise bind the un-awaited context coroutine, classify — which
raises `AttributeError` in data preparation because the context is a
coroutine, before the service `try` block — and only then build and insert
the row.  The comment-posting step (`post_pr_comment`, a log in the MVP
source) touches no persisted state and is not modelled.  Service
construction is summarised by `svc`; an error is the exception re-raised by
the task's `except` clause. -/
def process_pull_request (co : PyCoerce) (svc : ServiceOutcome)
    (db : List PrRecord) (pr_data : PRPayload) :
    Except PyErr (RunResult × List PrRecord) :=
  match pr_data.number with
  | none => .error .keyError
  | some pr_number =>
  match pr_data.head_repo_full_name with
  | none => .error .keyError
  | some repo_full_name =>
  match pr_data.id with
  | none => .error .keyError
  | some pr_id =>
  if (db.find? (fun r => r.github_pr_id == pr_id)).isSome then
    .ok (.skipped ("already_analyzed"), db)
  else
    let pr_context := get_pr_context_unawaited repo_full_name pr_number
    match classify_pr_ctx co pr_data pr_context svc with
    | .error e => .error e
    | .ok analysis =>
    match pr_data.title, pr_data.body, pr_data.user_login, pr_data.state with
    | some title, some body, some author, some state =>
        match jlookup analysis ("classification"), jlookup analysis ("confidence"),
            jlookup analysis ("priority_score"), jlookup analysis ("reasoning"),
            jlookup analysis ("suggested_action") with
        | some cls, some confidence, some priority, some reasoning, some suggested =>
            let record : PrRecord :=
              ⟨pr_id, repo_full_name, pr_number, title, body.getD (""), author, state,
               cls, confidence, priority, reasoning, suggested⟩
            .ok (.success pr_number cls priority, db ++ [record])
        | _, _, _, _, _ => .error .keyError
    | _, _, _, _ => .error .keyError

/-! ### Celery retry discipline around the chain -/

/-- Terminal outcome of a dispatched task. -/
inductive TaskOutcome (α : Type) where
  | success (a : α)
  | failed
deriving DecidableEq

/-- Recursion of the Celery retry driver: `budget` is the number of retries
still allowed, i.e. `max_retries` minus the current retries counter, so the
terminal case `budget = 0` is exactly the check
`retries + 1 > max_retries` of `Task.retry`. -/
def celeryExecuteAux (body : Nat → Except PyErr α) (countdown : Nat) :
    Nat → Nat → Nat × List Nat × TaskOutcome α
  | 0, retries =>
    match body retries with
    | .ok a => (1, [], .success a)
    | .error _ => (1, [], .failed)
  | budget + 1, retries =>
    match body retries with
    | .ok a => (1, [], .success a)
    | .error _ =>
        let rest := celeryExecuteAux body countdown budget (retries + 1)
        (rest.1 + 1, countdown :: rest.2.1, rest.2.2)

/-- Models Celery's `Task.retry` driver (the external library the source
hands `countdown=60, max_retries=3`): the body runs with a retries counter
starting at 0; an exception calls `retry`, which re-enqueues the task after
a `countdown` delay unless the incremented retry count would exceed
`max_retries`, in which case the task terminally fails
(`MaxRetriesExceededError`).  Returns the number of executions, the delays
scheduled between consecutive executions, and the outcome. -/
def celeryExecute (body : Nat → Except PyErr α) (max_retries countdown : Nat) :
    Nat × List Nat × TaskOutcome α :=
  celeryExecuteAux body countdown max_retries 0

/-- Models the dispatch of `process_pull_request` with the retry parameters
of the source: `raise self.retry(exc=e, countdown=60, max_retries=3)`. -/
def process_pull_request_dispatch (body : Nat → Except PyErr α) :
    Nat × List Nat × TaskOutcome α :=
  celeryExecute body 3 60

/-! ### Webhook endpoint (src/api/routes/webhooks.py, handle_github_webhook) -/

/-- Environment configuration read by the webhook route. -/
structure WebhookConfig where
  secret : Option (List Nat)
  single_process : Bool

/-- The `issue` sub-payload of an `issue_comment` event, restricted to the
fields read by `_handle_triage_command`.  `none` models an absent key and
also a key present with a `None` value: `_handle_triage_command` reads every
field with `.get`, so the two are indistinguishable downstream. -/
structure IssuePayload where
  number : Option Int := none
  title : Option String := none
  body : Option String := none
  state : Option String := none
  user_login : Option String := none
  id : Option Int := none
  has_pull_request : Bool := false

/-- A parsed webhook payload, restricted to the keys the route reads.
`pull_request`, `issue` and `comment_body` model
`payload.get("pull_request", {})`, `payload.get("issue", {})` and
`payload.get("comment", {}).get("body", "")`; `installation_id` models
`payload.get("installation", {}).get("id")`. -/
structure WebhookPayload where
  installation_id : Option Int := none
  action : Option String := none
  pull_request : Option PRPayload := none
  issue : Option IssuePayload := none
  comment_body : Option String := none
  repository_full_name : Option String := none

/-- An inbound webhook request: the raw bytes and headers, plus the result
of `json.loads` on the body (`none` models a `JSONDecodeError`; the JSON
parser itself is external). -/
structure WebhookRequest where
  body : List Nat
  signature : List Char
  event_type : String
  parsed : Option WebhookPayload

/-- The endpoint's observable outcome: the HTTP status, a tag naming the
response body's `status`/`detail`, and whether a task was handed to the
queue. -/
structure HttpResponse where
  status : Nat
  tag : String
  dispatched : Bool
deriving DecidableEq

/-- Models `_handle_pull_request_event`: `opened`/`synchronize` actions are
processed (inline in single-process mode, else queued); other actions are
ignored.  An inline chain failure raises `HTTPException(500)`. -/
def handle_pull_request_event (cfg : WebhookConfig) (co : PyCoerce)
    (svc : ServiceOutcome) (db : List PrRecord) (payload : WebhookPayload) :
    Except PyErr (HttpResponse × List PrRecord) :=
  let pr_data := payload.pull_request.getD {}
  if payload.action == some ("opened") || payload.action == some ("synchronize") then
    if cfg.single_process then
      match process_pull_request co svc db pr_data with
      | .ok (_res, db2) => .ok (⟨200, ("processed"), false⟩, db2)
      | .error _ => .error (.httpExc 500 ("Processing failed"))
    else
      .ok (⟨202, ("queued"), true⟩, db)
  else
    .ok (⟨200, ("ignored"), false⟩, db)

/-- Models `_handle_triage_command`: ignores non-PR issues, otherwise builds
the degraded-context payload from issue-level fields (diff-size fields zero)
and dispatches it inline or queued. -/
def handle_triage_command (cfg : WebhookConfig) (co : PyCoerce)
    (svc : ServiceOutcome) (db : List PrRecord) (payload : WebhookPayload) :
    Except PyErr (HttpResponse × List PrRecord) :=
  let issue := payload.issue.getD {}
  if !issue.has_pull_request then
    .ok (⟨200, ("ignored"), false⟩, db)
  else
    let pr_data : PRPayload :=
      { number := issue.number
        title := issue.title
        body := some issue.body
        state := issue.state
        user_login := issue.user_login
        head_repo_full_name := payload.repository_full_name
        additions := some 0
        deletions := some 0
        changed_files := some 0
        commits := some 0
        id := issue.id }
    if cfg.single_process then
      match process_pull_request co svc db pr_data with
      | .ok (_res, db2) => .ok (⟨200, ("processed"), false⟩, db2)
      | .error _ => .error (.httpExc 500 ("Processing failed"))
    else
      .ok (⟨202, ("queued"), true⟩, db)

/-- Models `_handle_issue_comment_event`: only `created` comments containing
the bot mention are considered; a parsed `/triage` command is dispatched and
`/help` is acknowledged. -/
def handle_issue_comment_event (cfg : WebhookConfig) (co : PyCoerce)
    (svc : ServiceOutcome) (db : List PrRecord) (payload : WebhookPayload) :
    Except PyErr (HttpResponse × List PrRecord) :=
  if payload.action != some ("created") then
    .ok (⟨200, ("ignored"), false⟩, db)
  else
    let comment_body := (payload.comment_body.getD ("")).toList
    if !containsSub (toLowerChars comment_body) mentionToken then
      .ok (⟨200, ("ignored"), false⟩, db)
    else
      match parse_bot_command comment_body with
      | none => .ok (⟨200, ("ignored"), false⟩, db)
      | some .triage => handle_triage_command cfg co svc db payload
      | some .help => .ok (⟨200, ("help_posted"), false⟩, db)

/-- The `try` body of `handle_github_webhook`: verify the signature (a
mismatch raises `HTTPException(401)`), parse the body, and route by event
type. -/
def webhook_try (cfg : WebhookConfig) (co : PyCoerce) (svc : ServiceOutcome)
    (db : List PrRecord) (req : WebhookRequest) :
    Except PyErr (HttpResponse × List PrRecord) :=
  if !verify_webhook_signature cfg.secret req.body req.signature then
    .error (.httpExc 401 ("Invalid signature"))
  else
    match req.parsed with
    | none => .error .jsonDecode
    | some payload =>
        if req.event_type = ("pull_request") then
          handle_pull_request_event cfg co svc db payload
        else if req.event_type = ("issue_comment") then
          handle_issue_comment_event cfg co svc db payload
        else
          .ok (⟨200, ("ignored"), false⟩, db)

/-- Models `handle_github_webhook` with its exception handlers: only a
`json.JSONDecodeError` reaches the 400 handler; every other exception —
including the `HTTPException(401)` raised for a bad signature, which is a
subclass of `Exception` — is caught by the blanket handler and answered
with status 500. -/
def handle_github_webhook (cfg : WebhookConfig) (co : PyCoerce)
    (svc : ServiceOutcome) (db : List PrRecord) (req : WebhookRequest) :
    HttpResponse × List PrRecord :=
  match webhook_try cfg co svc db req with
  | .ok r => r
  | .error .jsonDecode => (⟨400, ("Invalid JSON"), false⟩, db)
  | .error _ => (⟨500, ("Internal server error"), false⟩, db)

/-- A concrete well-formed pull-request payload, used to instantiate
universally quantified theorems at a concrete input. -/
def samplePayload : PRPayload :=
  { id := (some 7)
    number := some 1
    head_repo_full_name := some ("o/r")
    title := some ("t")
    body := some none
    user_login := some ("u")
    state := some ("open") }

/-! ### Dictionary lemmas -/

theorem jlookup_setKey_self (l : JObj) (k : String) (v : JVal) :
    jlookup (setKey l k v) k = some v := by
  induction l with
  | nil => simp [setKey, jlookup]
  | cons p rest ih =>
      obtain ⟨k2, v2⟩ := p
      by_cases h : k2 = k
      · simp [setKey, h, jlookup]
      · simp [setKey, h, jlookup, ih]

theorem jlookup_setKey_ne (l : JObj) (k k2 : String) (v : JVal) (h : k2 ≠ k) :
    jlookup (setKey l k v) k2 = jlookup l k2 := by
  induction l with
  | nil => simp [setKey, jlookup, Ne.symm h]
  | cons p rest ih =>
      obtain ⟨k3, v3⟩ := p
      by_cases h3 : k3 = k
      · subst h3
        simp [setKey, jlookup, Ne.symm h]
      · simp [setKey, h3, jlookup, ih]

theorem pymaxQ_pyminQ_mem (c : Rat) :
    0 ≤ pymaxQ 0 (pyminQ 1 c) ∧ pymaxQ 0 (pyminQ 1 c) ≤ 1 := by
  unfold pymaxQ pyminQ
  by_cases h1 : (1 : Rat) ≤ c
  · rw [if_pos h1]
    norm_num
  · rw [if_neg h1]
    by_cases h2 : c ≤ 0
    · rw [if_pos h2]
      norm_num
    · rw [if_neg h2]
      constructor <;> linarith

theorem pymaxZ_pyminZ_mem (p : Int) :
    0 ≤ pymaxZ 0 (pyminZ 100 p) ∧ pymaxZ 0 (pyminZ 100 p) ≤ 100 := by
  unfold pymaxZ pyminZ
  by_cases h1 : (100 : Int) ≤ p
  · rw [if_pos h1]
    omega
  · rw [if_neg h1]
    by_cases h2 : p ≤ 0
    · rw [if_pos h2]
      omega
    · rw [if_neg h2]
      omega

/-! ### Validation lemmas: the shape of every validated result -/

theorem validate_result_classification (co : PyCoerce) (result : JObj) :
    ∃ s, jlookup (validate_result co result) ("classification") = some (.jstr s) ∧
      s ∈ valid_classifications := by
  simp only [validate_result]
  rw [jlookup_setKey_ne _ _ _ _ (by decide), jlookup_setKey_ne _ _ _ _ (by decide),
      jlookup_setKey_ne _ _ _ _ (by decide), jlookup_setKey_ne _ _ _ _ (by decide)]
  by_cases hv : isValidClassification (jlookup result ("classification"))
  · unfold isValidClassification at hv
    split at hv
    · next s heq =>
        have hmem : s ∈ valid_classifications := by simpa using hv
        exact ⟨s, by simp [isValidClassification, heq, hmem], hmem⟩
    · exact absurd hv (by simp)
  · refine ⟨("Needs Minor Fixes"), ?_, by simp [valid_classifications]⟩
    simp [hv, jlookup_setKey_self]

theorem validate_result_confidence (co : PyCoerce) (result : JObj) :
    ∃ q, jlookup (validate_result co result) ("confidence") = some (.jfloat q) ∧
      0 ≤ q ∧ q ≤ 1 := by
  simp only [validate_result]
  rw [jlookup_setKey_ne _ _ _ _ (by decide), jlookup_setKey_ne _ _ _ _ (by decide),
      jlookup_setKey_ne _ _ _ _ (by decide), jlookup_setKey_self]
  exact ⟨_, rfl, pymaxQ_pyminQ_mem _⟩

theorem validate_result_priority (co : PyCoerce) (result : JObj) :
    ∃ p, jlookup (validate_result co result) ("priority_score") = some (.jint p) ∧
      0 ≤ p ∧ p ≤ 100 := by
  simp only [validate_result]
  rw [jlookup_setKey_ne _ _ _ _ (by decide), jlookup_setKey_ne _ _ _ _ (by decide),
      jlookup_setKey_self]
  exact ⟨_, rfl, pymaxZ_pyminZ_mem _⟩

theorem validate_result_reasoning (co : PyCoerce) (result : JObj) :
    jlookup (validate_result co result) ("reasoning") =
      some (jlookupD result ("reasoning") (.jstr ("Analysis completed"))) := by
  simp only [validate_result]
  rw [jlookup_setKey_ne _ _ _ _ (by decide), jlookup_setKey_self]
  simp only [jlookupD]
  rw [jlookup_setKey_ne _ _ _ _ (by decide), jlookup_setKey_ne _ _ _ _ (by decide)]
  by_cases hv : isValidClassification (jlookup result ("classification"))
  · rw [if_pos hv]
  · rw [if_neg hv, jlookup_setKey_ne _ _ _ _ (by decide)]

theorem validate_result_suggested (co : PyCoerce) (result : JObj) :
    jlookup (validate_result co result) ("suggested_action") =
      some (jlookupD result ("suggested_action")
        (.jstr ("Review and take appropriate action"))) := by
  simp only [validate_result]
  rw [jlookup_setKey_self]
  simp only [jlookupD]
  rw [jlookup_setKey_ne _ _ _ _ (by decide), jlookup_setKey_ne _ _ _ _ (by decide),
      jlookup_setKey_ne _ _ _ _ (by decide)]
  by_cases hv : isValidClassification (jlookup result ("classification"))
  · rw [if_pos hv]
  · rw [if_neg hv, jlookup_setKey_ne _ _ _ _ (by decide)]

/-! ### Fallback lemmas -/

theorem get_fallback_lookups (pr_data : PRPayload) :
    ∃ s p, jlookup (get_fallback_classification pr_data) ("classification") = some (.jstr s) ∧
      s ∈ valid_classifications ∧
      jlookup (get_fallback_classification pr_data) ("priority_score") = some (.jint p) ∧
      0 ≤ p ∧ p ≤ 100 ∧
      jlookup (get_fallback_classification pr_data) ("confidence") = some (.jfloat (3/10)) ∧
      jlookup (get_fallback_classification pr_data) ("reasoning") =
        some (.jstr ("Fallback classification due to analysis error")) ∧
      jlookup (get_fallback_classification pr_data) ("suggested_action") =
        some (.jstr ("Manual review recommended")) := by
  simp only [get_fallback_classification]
  by_cases h1 : fallback_is_draft pr_data
  · refine ⟨("Needs Minor Fixes"), 20, ?_, by simp [valid_classifications], ?_, by omega,
      by omega, ?_, ?_, ?_⟩ <;> simp [h1, jlookup]
  · by_cases h2 : fallback_has_conflicts pr_data
    · refine ⟨("Blocked/Stale"), 80, ?_, by simp [valid_classifications], ?_, by omega,
        by omega, ?_, ?_, ?_⟩ <;> simp [h1, h2, jlookup]
    · by_cases h3 : fallback_additions pr_data > 500
      · refine ⟨("Needs Architecture Discussion"), 60, ?_, by simp [valid_classifications],
          ?_, by omega, by omega, ?_, ?_, ?_⟩ <;> simp [h1, h2, h3, jlookup]
      · refine ⟨("Ready to Merge"), 50, ?_, by simp [valid_classifications], ?_, by omega,
          by omega, ?_, ?_, ?_⟩ <;> simp [h1, h2, h3, jlookup]

/-! ### Parser lemmas -/

theorem parseBotScan_eq_find (lines : List (List Char)) :
    parseBotScan lines =
      (lines.find? (fun line => containsSub line mentionToken &&
          (containsSub line triageToken || containsSub line helpToken))).map
        (fun line => if containsSub line triageToken then BotCommand.triage
          else BotCommand.help) := by
  induction lines with
  | nil => rfl
  | cons line rest ih =>
      cases c1 : containsSub line mentionToken
      · simp [parseBotScan, c1, List.find?, ih]
      · cases c2 : containsSub line triageToken
        · cases c3 : containsSub line helpToken
          · simp [parseBotScan, c1, c2, c3, List.find?, ih]
          · simp [parseBotScan, c1, c2, c3, List.find?]
        · simp [parseBotScan, c1, c2, List.find?]

/-! ### Claim theorems -/

/-- C8: the command parser scans the lowercased comment's lines
top-to-bottom; the first line containing the bot mention together with a
recognized subcommand decides the result, `/triage` taking precedence over
`/help` within that line, and the parser returns null when no such line
exists (`parseBotSpec` is this wording, proved equal to the embedded
parser for every comment body); moreover the spec's three concrete
examples behave as stated, case-insensitively. -/
theorem claim8_command_parsing :
    (∀ comment_body : List Char, parse_bot_command comment_body = parseBotSpec comment_body) ∧
    parse_bot_command (("@prcopilot /triage please").toList) = some BotCommand.triage ∧
    parse_bot_command (("hello world").toList) = none ∧
    parse_bot_command (("@PRCOPILOT /HELP").toList) = some BotCommand.help := by
  refine ⟨fun comment_body => ?_, by decide, by decide, by decide⟩
  unfold parse_bot_command parseBotSpec
  exact parseBotScan_eq_find _

/-- C10: the fetched PR context is the fixed dictionary with exactly the
keys ci_status, review_count, author_contributions, days_since_created and
has_conflicts; the key mergeable is never present in it, and since the
data-preparation step derives its has_conflicts field from that key
(defaulting to true) being exactly false, the merged analysis data has
has_conflicts = false for every PR payload. -/
theorem claim10_context_has_conflicts_false :
    ∀ (repo_full_name : String) (pr_number : Int),
      (get_pr_context repo_full_name pr_number).map Prod.fst =
        [("ci_status"), ("review_count"), ("author_contributions"),
         ("days_since_created"), ("has_conflicts")] ∧
      jlookup (get_pr_context repo_full_name pr_number) ("mergeable") = none ∧
      ∀ pr_data : PRPayload,
        (prepare_pr_data pr_data
          (some (get_pr_context repo_full_name pr_number))).has_conflicts = some false := by
  intro repo_full_name pr_number
  exact ⟨rfl, rfl, fun pr_data => rfl⟩

/-- C4: the classifier never raises to its caller; whenever the
reasoning-service branch fails — the call itself fails, the response is not
JSON, or the parsed response is not an object so that reading it raises
inside the same try — `classify_pr` returns exactly the fallback heuristic
applied to the payload. -/
theorem claim4_classify_never_raises_fallback (co : PyCoerce) (pr_data : PRPayload)
    (pr_context : Option JObj) (svc : ServiceOutcome)
    (h : service_branch_failed svc = true) :
    classify_pr co pr_data pr_context svc = get_fallback_classification pr_data := by
  cases svc with
  | none => rfl
  | some v =>
      cases v <;> first
        | rfl
        | exact absurd h (by simp [service_branch_failed])

/-- Witness for C4 at a concrete input: a failed service call on the empty
payload yields the fallback result. -/
theorem claim4_witness :
    service_branch_failed none = true ∧
    classify_pr noStringCoerce {} none none = get_fallback_classification {} :=
  ⟨rfl, claim4_classify_never_raises_fallback noStringCoerce {} none none rfl⟩

/-- C3: the fallback classification is the stated deterministic function of
draft, has_conflicts (mergeable exactly false) and additions, with
confidence exactly 0.3 and the fixed reasoning and suggested-action
strings in every case. -/
theorem claim3_fallback_determinism (pr_data : PRPayload) :
    (fallback_is_draft pr_data = true →
      jlookup (get_fallback_classification pr_data) ("classification") =
        some (.jstr ("Needs Minor Fixes")) ∧
      jlookup (get_fallback_classification pr_data) ("priority_score") = some (.jint 20)) ∧
    (fallback_is_draft pr_data = false → fallback_has_conflicts pr_data = true →
      jlookup (get_fallback_classification pr_data) ("classification") =
        some (.jstr ("Blocked/Stale")) ∧
      jlookup (get_fallback_classification pr_data) ("priority_score") = some (.jint 80)) ∧
    (fallback_is_draft pr_data = false → fallback_has_conflicts pr_data = false →
      fallback_additions pr_data > 500 →
      jlookup (get_fallback_classification pr_data) ("classification") =
        some (.jstr ("Needs Architecture Discussion")) ∧
      jlookup (get_fallback_classification pr_data) ("priority_score") = some (.jint 60)) ∧
    (fallback_is_draft pr_data = false → fallback_has_conflicts pr_data = false →
      ¬fallback_additions pr_data > 500 →
      jlookup (get_fallback_classification pr_data) ("classification") =
        some (.jstr ("Ready to Merge")) ∧
      jlookup (get_fallback_classification pr_data) ("priority_score") = some (.jint 50)) ∧
    jlookup (get_fallback_classification pr_data) ("confidence") = some (.jfloat (3/10)) ∧
    jlookup (get_fallback_classification pr_data) ("reasoning") =
      some (.jstr ("Fallback classification due to analysis error")) ∧
    jlookup (get_fallback_classification pr_data) ("suggested_action") =
      some (.jstr ("Manual review recommended")) := by
  obtain ⟨s, p, _, _, _, _, _, hc, hr, hs⟩ := get_fallback_lookups pr_data
  refine ⟨?_, ?_, ?_, ?_, hc, hr, hs⟩
  · intro h1
    constructor <;> simp [get_fallback_classification, h1, jlookup]
  · intro h1 h2
    constructor <;> simp [get_fallback_classification, h1, h2, jlookup]
  · intro h1 h2 h3
    constructor <;> simp [get_fallback_classification, h1, h2, h3, jlookup]
  · intro h1 h2 h3
    constructor <;> simp [get_fallback_classification, h1, h2, h3, jlookup]

/-- Witness for C3 at the four concrete payload shapes of the spec's
determinism test. -/
theorem claim3_witness :
    (jlookup (get_fallback_classification { draft := some true }) ("classification") =
       some (.jstr ("Needs Minor Fixes")) ∧
     jlookup (get_fallback_classification { draft := some true }) ("priority_score") =
       some (.jint 20)) ∧
    (jlookup (get_fallback_classification { mergeable := some (some false) })
       ("classification") = some (.jstr ("Blocked/Stale")) ∧
     jlookup (get_fallback_classification { mergeable := some (some false) })
       ("priority_score") = some (.jint 80)) ∧
    (jlookup (get_fallback_classification { additions := some 600 }) ("classification") =
       some (.jstr ("Needs Architecture Discussion")) ∧
     jlookup (get_fallback_classification { additions := some 600 }) ("priority_score") =
       some (.jint 60)) ∧
    (jlookup (get_fallback_classification {}) ("classification") =
       some (.jstr ("Ready to Merge")) ∧
     jlookup (get_fallback_classification {}) ("priority_score") = some (.jint 50)) :=
  ⟨(claim3_fallback_determinism _).1 rfl,
   (claim3_fallback_determinism _).2.1 rfl rfl,
   (claim3_fallback_determinism _).2.2.1 rfl rfl (by simp [fallback_additions]),
   (claim3_fallback_determinism _).2.2.2.1 rfl rfl (by simp [fallback_additions])⟩

/-- C2 counterexample: a service response whose reasoning field holds the
number 42 passes through validation unchanged, so the validated result's
reasoning is present but is not a string, refuting the claim that
reasoning is always a string. -/
theorem claim2_counterexample :
    jlookup (validate_result noStringCoerce [(("reasoning"), .jint 42)]) ("reasoning") =
      some (.jint 42) ∧
    ∀ s : String, (JVal.jint 42) ≠ (.jstr s) := by
  constructor
  · rw [validate_result_reasoning]
    rfl
  · intro s h
    cases h

/-- C2 as amended: for every service dictionary the validated result has a
classification among the six categories, a confidence float clamped into
[0, 1], a priority integer clamped into [0, 100], and non-missing
reasoning and suggested_action fields — filled with the fixed placeholder
strings when absent, while present values (of any type) pass through; and
every fallback result satisfies the same range invariants. -/
theorem claim2_amended_ranges (co : PyCoerce) (result : JObj) (pr_data : PRPayload) :
    (∃ s, jlookup (validate_result co result) ("classification") = some (.jstr s) ∧
      s ∈ valid_classifications) ∧
    (∃ q, jlookup (validate_result co result) ("confidence") = some (.jfloat q) ∧
      0 ≤ q ∧ q ≤ 1) ∧
    (∃ p, jlookup (validate_result co result) ("priority_score") = some (.jint p) ∧
      0 ≤ p ∧ p ≤ 100) ∧
    (jlookup (validate_result co result) ("reasoning")).isSome ∧
    (jlookup (validate_result co result) ("suggested_action")).isSome ∧
    (jlookup result ("reasoning") = none →
      jlookup (validate_result co result) ("reasoning") =
        some (.jstr ("Analysis completed"))) ∧
    (jlookup result ("suggested_action") = none →
      jlookup (validate_result co result) ("suggested_action") =
        some (.jstr ("Review and take appropriate action"))) ∧
    (∃ s p, jlookup (get_fallback_classification pr_data) ("classification") =
        some (.jstr s) ∧ s ∈ valid_classifications ∧
      jlookup (get_fallback_classification pr_data) ("priority_score") = some (.jint p) ∧
      0 ≤ p ∧ p ≤ 100 ∧
      jlookup (get_fallback_classification pr_data) ("confidence") =
        some (.jfloat (3/10)) ∧
      (jlookup (get_fallback_classification pr_data) ("reasoning")).isSome ∧
      (jlookup (get_fallback_classification pr_data) ("suggested_action")).isSome) := by
  obtain ⟨s, p, hcls, hmem, hprio, hp0, hp1, hconf, hreas, hsugg⟩ :=
    get_fallback_lookups pr_data
  refine ⟨validate_result_classification co result, validate_result_confidence co result,
    validate_result_priority co result, ?_, ?_, ?_, ?_,
    ⟨s, p, hcls, hmem, hprio, hp0, hp1, hconf, by rw [hreas]; rfl, by rw [hsugg]; rfl⟩⟩
  · rw [validate_result_reasoning]
    rfl
  · rw [validate_result_suggested]
    rfl
  · intro h
    rw [validate_result_reasoning]
    simp [jlookupD, h]
  · intro h
    rw [validate_result_suggested]
    simp [jlookupD, h]

/-- Witness for C2 (amended) at a concrete input: validating the empty
dictionary fills reasoning with the placeholder string. -/
theorem claim2_witness :
    jlookup (validate_result noStringCoerce []) ("reasoning") =
      some (.jstr ("Analysis completed")) :=
  (claim2_amended_ranges noStringCoerce [] {}).2.2.2.2.2.1 rfl

/-- C5 counterexample: a task whose chain raises on every execution is
executed 4 times by the dispatch configured with max_retries = 3, not 3
times as claimed (Celery's max_retries bounds the retries, not the total
attempts). -/
theorem claim5_counterexample :
    (process_pull_request_dispatch (fun _ => (.error .keyError : Except PyErr Unit))).1 = 4 ∧
    (process_pull_request_dispatch (fun _ => (.error .keyError : Except PyErr Unit))).1 ≠ 3 := by
  constructor
  · rfl
  · decide

/-- C5 as amended: a task whose chain raises on every execution is
attempted exactly 4 times in total (the initial run plus 3 retries), with
a fixed 60-time-unit delay scheduled before each retry, and then enters
the terminal failed state — it is never executed a 5th time and never
loops indefinitely. -/
theorem claim5_amended_retry_termination (body : Nat → Except PyErr α)
    (h : ∀ r, ∃ e, body r = .error e) :
    process_pull_request_dispatch body = (4, [60, 60, 60], .failed) := by
  obtain ⟨e0, h0⟩ := h 0
  obtain ⟨e1, h1⟩ := h 1
  obtain ⟨e2, h2⟩ := h 2
  obtain ⟨e3, h3⟩ := h 3
  simp [process_pull_request_dispatch, celeryExecute, celeryExecuteAux, h0, h1, h2, h3]

/-- Witness for C5 (amended) at a concrete always-failing body. -/
theorem claim5_witness :
    process_pull_request_dispatch (fun _ => (.error .keyError : Except PyErr Unit)) =
      (4, [60, 60, 60], .failed) :=
  claim5_amended_retry_termination _ (fun _ => ⟨.keyError, rfl⟩)

/-- C1 (the code as written): because the context coroutine is never
awaited, the chain raises `AttributeError` in data preparation on every
fresh PR id, before anything is persisted — so two sequential deliveries
of payloads carrying the same fresh id both raise: no verdict row is ever
created, the first run does not persist, and the second run never reports
the skipped outcome.  The spec's idempotency lifecycle (persist once, then
skip duplicates) is the evident intent; the missing `await` is the slip. -/
theorem claim1_unawaited_context_never_persists
    (co1 co2 : PyCoerce) (svc1 svc2 : ServiceOutcome) (db : List PrRecord)
    (d1 d2 : PRPayload) (prId : Int)
    (hid1 : d1.id = some prId) (hid2 : d2.id = some prId)
    (hnum1 : d1.number.isSome) (hrepo1 : d1.head_repo_full_name.isSome)
    (hnum2 : d2.number.isSome) (hrepo2 : d2.head_repo_full_name.isSome)
    (hfresh : db.countP (fun r => r.github_pr_id == prId) = 0) :
    process_pull_request co1 svc1 db d1 = .error .attrError ∧
    process_pull_request co2 svc2 db d2 = .error .attrError := by
  obtain ⟨n1, hn1⟩ := Option.isSome_iff_exists.mp hnum1
  obtain ⟨r1, hr1⟩ := Option.isSome_iff_exists.mp hrepo1
  obtain ⟨n2, hn2⟩ := Option.isSome_iff_exists.mp hnum2
  obtain ⟨r2, hr2⟩ := Option.isSome_iff_exists.mp hrepo2
  have hfind : db.find? (fun r => r.github_pr_id == prId) = none := by
    rw [List.find?_eq_none]
    intro x hx
    simpa using List.countP_eq_zero.mp hfresh x hx
  constructor
  · simp only [process_pull_request, hid1, hn1, hr1, hfind, Option.isSome_none,
      Bool.false_eq_true, if_false]
    rfl
  · simp only [process_pull_request, hid2, hn2, hr2, hfind, Option.isSome_none,
      Bool.false_eq_true, if_false]
    rfl

/-- Witness for C1 at a concrete well-formed payload and an empty store:
both deliveries raise and nothing is persisted. -/
theorem claim1_witness :
    process_pull_request noStringCoerce none [] samplePayload = .error .attrError ∧
    process_pull_request noStringCoerce none [] samplePayload = .error .attrError :=
  claim1_unawaited_context_never_persists noStringCoerce noStringCoerce none none []
    samplePayload samplePayload 7 rfl rfl rfl rfl rfl rfl rfl

/-- C6 (the code as written): when signature verification fails, the
`HTTPException(401)` raised inside the endpoint's `try` block is caught by
the blanket `except Exception` handler, so the endpoint answers 500 — not
the 401 the spec requires — although no task is dispatched and the store
is untouched. -/
theorem claim6_signature_failure_yields_500 (cfg : WebhookConfig) (co : PyCoerce)
    (svc : ServiceOutcome) (db : List PrRecord) (req : WebhookRequest)
    (h : verify_webhook_signature cfg.secret req.body req.signature = false) :
    (handle_github_webhook cfg co svc db req).1.status = 500 ∧
    (handle_github_webhook cfg co svc db req).1.dispatched = false ∧
    (handle_github_webhook cfg co svc db req).2 = db ∧
    (handle_github_webhook cfg co svc db req).1.status ≠ 401 := by
  simp [handle_github_webhook, webhook_try, h]

/-- Witness for C6 at a concrete request whose signature header is empty
while a secret is configured. -/
theorem claim6_witness :
    (handle_github_webhook ⟨some [107], true⟩ noStringCoerce none []
        ⟨[97], [], ("pull_request"), none⟩).1.status = 500 ∧
    (handle_github_webhook ⟨some [107], true⟩ noStringCoerce none []
        ⟨[97], [], ("pull_request"), none⟩).1.dispatched = false ∧
    (handle_github_webhook ⟨some [107], true⟩ noStringCoerce none []
        ⟨[97], [], ("pull_request"), none⟩).2 = ([] : List PrRecord) ∧
    (handle_github_webhook ⟨some [107], true⟩ noStringCoerce none []
        ⟨[97], [], ("pull_request"), none⟩).1.status ≠ 401 :=
  claim6_signature_failure_yields_500 ⟨some [107], true⟩ noStringCoerce none []
    ⟨[97], [], ("pull_request"), none⟩ (by decide)

/-- The pull-request handler either answers 200/202 or raises the inline
`HTTPException(500)`; it never raises a JSON-decode error. -/
theorem handle_pull_request_event_shape (cfg : WebhookConfig) (co : PyCoerce)
    (svc : ServiceOutcome) (db : List PrRecord) (payload : WebhookPayload) :
    (∃ resp db2, handle_pull_request_event cfg co svc db payload = .ok (resp, db2) ∧
      (resp.status = 200 ∨ resp.status = 202)) ∨
    handle_pull_request_event cfg co svc db payload =
      .error (.httpExc 500 ("Processing failed")) := by
  unfold handle_pull_request_event
  by_cases ha : (payload.action == some ("opened") ||
      payload.action == some ("synchronize")) = true
  · rw [if_pos ha]
    by_cases hsp : cfg.single_process
    · rw [if_pos hsp]
      rcases hp : process_pull_request co svc db (payload.pull_request.getD {}) with e | r
      · exact .inr rfl
      · exact .inl ⟨_, _, rfl, .inl rfl⟩
    · rw [if_neg hsp]
      exact .inl ⟨_, _, rfl, .inr rfl⟩
  · rw [if_neg ha]
    exact .inl ⟨_, _, rfl, .inl rfl⟩

/-- The triage handler either answers 200/202 or raises the inline
`HTTPException(500)`. -/
theorem handle_triage_command_shape (cfg : WebhookConfig) (co : PyCoerce)
    (svc : ServiceOutcome) (db : List PrRecord) (payload : WebhookPayload) :
    (∃ resp db2, handle_triage_command cfg co svc db payload = .ok (resp, db2) ∧
      (resp.status = 200 ∨ resp.status = 202)) ∨
    handle_triage_command cfg co svc db payload =
      .error (.httpExc 500 ("Processing failed")) := by
  unfold handle_triage_command
  by_cases hpr : (!(payload.issue.getD {}).has_pull_request) = true
  · rw [if_pos hpr]
    exact .inl ⟨_, _, rfl, .inl rfl⟩
  · rw [if_neg hpr]
    by_cases hsp : cfg.single_process
    · rw [if_pos hsp]
      rcases hp : process_pull_request co svc db _ with e | r
      · exact .inr rfl
      · exact .inl ⟨_, _, rfl, .inl rfl⟩
    · rw [if_neg hsp]
      exact .inl ⟨_, _, rfl, .inr rfl⟩

/-- The comment handler either answers 200/202 or raises the inline
`HTTPException(500)`. -/
theorem handle_issue_comment_event_shape (cfg : WebhookConfig) (co : PyCoerce)
    (svc : ServiceOutcome) (db : List PrRecord) (payload : WebhookPayload) :
    (∃ resp db2, handle_issue_comment_event cfg co svc db payload = .ok (resp, db2) ∧
      (resp.status = 200 ∨ resp.status = 202)) ∨
    handle_issue_comment_event cfg co svc db payload =
      .error (.httpExc 500 ("Processing failed")) := by
  unfold handle_issue_comment_event
  by_cases ha : (payload.action != some ("created")) = true
  · rw [if_pos ha]
    exact .inl ⟨_, _, rfl, .inl rfl⟩
  · rw [if_neg ha]
    by_cases hm : (!containsSub (toLowerChars (payload.comment_body.getD ("")).toList)
        mentionToken) = true
    · rw [if_pos hm]
      exact .inl ⟨_, _, rfl, .inl rfl⟩
    · rw [if_neg hm]
      rcases parse_bot_command (payload.comment_body.getD ("")).toList with _ | cmd
      · exact .inl ⟨_, _, rfl, .inl rfl⟩
      · cases cmd
        · exact handle_triage_command_shape cfg co svc db payload
        · exact .inl ⟨_, _, rfl, .inl rfl⟩

/-- C9 counterexample: a processed `pull_request`/`opened` event whose
payload lacks the required nested head-repository name is answered 500 in
inline mode — not a 400-class response as claimed. -/
theorem claim9_counterexample :
    (handle_github_webhook ⟨none, true⟩ noStringCoerce none []
        ⟨[], [], ("pull_request"),
         some { action := some ("opened"),
                pull_request := some { number := some 1, id := some 7 } }⟩).1.status =
      500 ∧
    ¬(400 ≤ (handle_github_webhook ⟨none, true⟩ noStringCoerce none []
        ⟨[], [], ("pull_request"),
         some { action := some ("opened"),
                pull_request := some { number := some 1, id := some 7 } }⟩).1.status ∧
      (handle_github_webhook ⟨none, true⟩ noStringCoerce none []
        ⟨[], [], ("pull_request"),
         some { action := some ("opened"),
                pull_request := some { number := some 1, id := some 7 } }⟩).1.status <
        500) := by
  constructor
  · rfl
  · decide

/-- C9 as amended: a processed pull_request event whose chain raises on a
missing required field is answered 500 in inline mode (the error is never
translated to a 400-class response), and more generally no request whose
signature verifies and whose body parses is ever answered with a 400-class
status — the endpoint's only 400 arises from a JSON-decode failure. -/
theorem claim9_amended_missing_fields_500_not_400 :
    (∀ (cfg : WebhookConfig) (co : PyCoerce) (svc : ServiceOutcome)
        (db : List PrRecord) (req : WebhookRequest) (payload : WebhookPayload)
        (e : PyErr),
      cfg.single_process = true →
      verify_webhook_signature cfg.secret req.body req.signature = true →
      req.parsed = some payload →
      req.event_type = ("pull_request") →
      (payload.action = some ("opened") ∨ payload.action = some ("synchronize")) →
      process_pull_request co svc db (payload.pull_request.getD {}) = .error e →
      handle_github_webhook cfg co svc db req =
        (⟨500, ("Internal server error"), false⟩, db)) ∧
    (∀ (cfg : WebhookConfig) (co : PyCoerce) (svc : ServiceOutcome)
        (db : List PrRecord) (req : WebhookRequest) (payload : WebhookPayload),
      verify_webhook_signature cfg.secret req.body req.signature = true →
      req.parsed = some payload →
      ¬(400 ≤ (handle_github_webhook cfg co svc db req).1.status ∧
        (handle_github_webhook cfg co svc db req).1.status < 500)) := by
  constructor
  · intro cfg co svc db req payload e hsp hverify hparsed hevent haction hfail
    have haction2 : (payload.action == some ("opened") ||
        payload.action == some ("synchronize")) = true := by
      rcases haction with h | h <;> simp [h]
    simp [handle_github_webhook, webhook_try, hverify, hparsed, hevent,
      handle_pull_request_event, haction2, hsp, hfail]
  · intro cfg co svc db req payload hverify hparsed
    simp only [handle_github_webhook, webhook_try, hverify, hparsed, Bool.not_true,
      Bool.false_eq_true, if_false]
    by_cases he1 : req.event_type = ("pull_request")
    · rw [if_pos he1]
      rcases handle_pull_request_event_shape cfg co svc db payload with
        ⟨resp, db2, hok, hst⟩ | herr
      · rw [hok]
        rcases hst with h | h <;> simp [h]
      · rw [herr]
        simp
    · rw [if_neg he1]
      by_cases he2 : req.event_type = ("issue_comment")
      · rw [if_pos he2]
        rcases handle_issue_comment_event_shape cfg co svc db payload with
          ⟨resp, db2, hok, hst⟩ | herr
        · rw [hok]
          rcases hst with h | h <;> simp [h]
        · rw [herr]
          simp
      · rw [if_neg he2]
        simp

/-- Witness for C9 (amended) at the concrete missing-field payload. -/
theorem claim9_witness :
    handle_github_webhook ⟨none, true⟩ noStringCoerce none []
        ⟨[], [], ("pull_request"),
         some { action := some ("opened"),
                pull_request := some { number := some 1, id := some 7 } }⟩ =
      (⟨500, ("Internal server error"), false⟩, ([] : List PrRecord)) :=
  claim9_amended_missing_fields_500_not_400.1 ⟨none, true⟩ noStringCoerce none []
    ⟨[], [], ("pull_request"),
     some { action := some ("opened"),
            pull_request := some { number := some 1, id := some 7 } }⟩
    { action := some ("opened"), pull_request := some { number := some 1, id := some 7 } }
    .keyError rfl rfl rfl rfl (.inl rfl) rfl

/-- Replacing a present element of a list by a different value changes the
list. -/
theorem set_ne_of_getElem_ne {α : Type} (l : List α) (i : Nat) (a c : α)
    (hget : l[i]? = some a) (hne : c ≠ a) : l.set i c ≠ l := by
  intro heq
  have hlt : i < l.length := (List.getElem?_eq_some.mp hget).1
  have h2 : (l.set i c)[i]? = l[i]? := by rw [heq]
  rw [List.getElem?_set_eq_of_lt c hlt, hget] at h2
  exact hne (Option.some.inj h2)

/-- C7: with a secret configured, verification accepts exactly the
signature made of the fixed scheme tag followed by the lowercase hex
HMAC-SHA256 digest of the raw body under the secret, so flipping any
character of an accepted signature causes rejection, and flipping a byte
of a concrete body causes rejection of its former signature; with no
secret configured every input is accepted; verification is a total
function, hence never raises. -/
theorem claim7_signature_verification :
    (∀ (payload : List Nat) (signature : List Char),
      verify_webhook_signature none payload signature = true) ∧
    (∀ (secret payload : List Nat) (signature : List Char),
      verify_webhook_signature (some secret) payload signature = true ↔
        signature = expected_signature secret payload) ∧
    (∀ (secret payload : List Nat) (signature : List Char) (i : Nat) (a c : Char),
      verify_webhook_signature (some secret) payload signature = true →
      signature[i]? = some a → c ≠ a →
      verify_webhook_signature (some secret) payload (signature.set i c) = false) ∧
    (verify_webhook_signature (some [107]) [97]
        (expected_signature [107] [97]) = true ∧
     verify_webhook_signature (some [107]) (([97]).set 0 98)
        (expected_signature [107] [97]) = false) := by
  have hiff : ∀ (secret payload : List Nat) (signature : List Char),
      verify_webhook_signature (some secret) payload signature = true ↔
        signature = expected_signature secret payload := by
    intro secret payload signature
    simp [verify_webhook_signature]
  refine ⟨fun _ _ => rfl, hiff, ?_, by decide, by decide⟩
  intro secret payload signature i a c hv hget hne
  have hsig := (hiff secret payload signature).mp hv
  subst hsig
  have hne2 : (expected_signature secret payload).set i c ≠
      expected_signature secret payload :=
    set_ne_of_getElem_ne _ i a c hget hne
  simp [verify_webhook_signature, hne2]

/-- Witness for C7: flipping the first character of the accepted signature
for a concrete secret and body causes rejection. -/
theorem claim7_witness :
    verify_webhook_signature (some [107]) [97]
      ((expected_signature [107] [97]).set 0 ('x')) = false :=
  claim7_signature_verification.2.2.1 [107] [97] (expected_signature [107] [97]) 0
    ('s') ('x') (by decide) (by decide) (by decide)

end PRManager
